import Mathlib

/-!
# Verification of the date-watermark tool (`src/main.py`)

Shallow embedding of the pure logic of the watermarking script:

* `compute_position` — the layout calculator (lines 149-164 of `main.py`);
* `extract_shoot_date` — the EXIF date resolver with fallback to the file
  modification time (lines 110-146), together with a model of CPython's
  `datetime.strptime` restricted to the six format strings the program uses;
* `iter_images` — the file enumerator (lines 77-86), modelled over an
  abstract listing of filesystem entries relative to a root directory;
* `draw_watermark` / `processAll` / `main_run` — the per-file compositing
  routine with its catch-all exception boundary and the driver loop
  (lines 167-241), with exceptions modelled by `Except` and printed output
  modelled as a list of log lines.

Python integers are modelled by `Int` (with `Int.fdiv` for Python's floor
division `//`) and by `Nat` where the source values are non-negative.
-/

namespace Watermark

/-! ## Layout calculator

`compute_position(img_size, text_size, position, margin)` from `main.py`
lines 149-164, translated clause by clause.  Python's `//` on integers is
floor division, i.e. `Int.fdiv`. -/

def compute_position (img_size : Int × Int) (text_size : Int × Int)
    (position : String) (margin : Int) : Int × Int :=
  let img_w := img_size.1
  let img_h := img_size.2
  let text_w := text_size.1
  let text_h := text_size.2
  if position = "top-left" then
    (margin, margin)
  else if position = "top-right" then
    (img_w - text_w - margin, margin)
  else if position = "bottom-left" then
    (margin, img_h - text_h - margin)
  else if position = "bottom-right" then
    (img_w - text_w - margin, img_h - text_h - margin)
  else
    -- center
    ((img_w - text_w).fdiv 2, (img_h - text_h).fdiv 2)

/-- The five anchor names accepted by the command line (`--position` choices). -/
def anchorNames : List String :=
  ["top-left", "top-right", "bottom-left", "bottom-right", "center"]

/-- The four corner anchor names. -/
def cornerNames : List String :=
  ["top-left", "top-right", "bottom-left", "bottom-right"]

/-- Any position string other than the four corner names falls through to the
final (center) branch of `compute_position`. -/
theorem compute_position_of_not_corner (img_w img_h text_w text_h margin : Int)
    (pos : String) (h : pos ∉ cornerNames) :
    compute_position (img_w, img_h) (text_w, text_h) pos margin
      = ((img_w - text_w).fdiv 2, (img_h - text_h).fdiv 2) := by
  simp only [cornerNames, List.mem_cons, List.not_mem_nil, or_false, not_or] at h
  obtain ⟨h1, h2, h3, h4⟩ := h
  simp [compute_position, h1, h2, h3, h4]

/-- **C1.** For every corner anchor, positive image and text dimensions and
non-negative margin, `compute_position` returns exactly the coordinate that
places the text box `margin` pixels from the relevant edge(s):
top-left `(m, m)`, top-right `(img_w - text_w - m, m)`, bottom-left
`(m, img_h - text_h - m)`, bottom-right `(img_w - text_w - m, img_h - text_h - m)`;
and whenever the box together with the margin fits in each axis
(`text_w + margin ≤ img_w` and `text_h + margin ≤ img_h`) the box placed at the
returned coordinate lies fully within `[0, img_w] × [0, img_h]`.  The formulas
are exact for every non-negative margin, so coordinates are never clamped and a
large margin may produce negative values. -/
theorem compute_position_corners (img_w img_h text_w text_h margin : Int)
    (hw : 0 < img_w) (hh : 0 < img_h) (htw : 0 < text_w) (hth : 0 < text_h)
    (hm : 0 ≤ margin) :
    (compute_position (img_w, img_h) (text_w, text_h) "top-left" margin
        = (margin, margin)
      ∧ compute_position (img_w, img_h) (text_w, text_h) "top-right" margin
        = (img_w - text_w - margin, margin)
      ∧ compute_position (img_w, img_h) (text_w, text_h) "bottom-left" margin
        = (margin, img_h - text_h - margin)
      ∧ compute_position (img_w, img_h) (text_w, text_h) "bottom-right" margin
        = (img_w - text_w - margin, img_h - text_h - margin))
    ∧ (text_w + margin ≤ img_w → text_h + margin ≤ img_h →
        ∀ pos ∈ cornerNames,
          0 ≤ (compute_position (img_w, img_h) (text_w, text_h) pos margin).1
          ∧ (compute_position (img_w, img_h) (text_w, text_h) pos margin).1
              + text_w ≤ img_w
          ∧ 0 ≤ (compute_position (img_w, img_h) (text_w, text_h) pos margin).2
          ∧ (compute_position (img_w, img_h) (text_w, text_h) pos margin).2
              + text_h ≤ img_h) := by
  refine ⟨⟨rfl, rfl, rfl, rfl⟩, ?_⟩
  intro hfitw hfith pos hpos
  simp only [cornerNames, List.mem_cons, List.not_mem_nil, or_false] at hpos
  rcases hpos with h | h | h | h <;> subst h <;>
    simp [compute_position] <;> omega

/-- Witness for C1 at image 100×80, text 30×20, margin 5. -/
theorem compute_position_corners_witness :
    compute_position ((100 : Int), 80) (30, 20) "bottom-right" 5 = (65, 55)
    ∧ 0 ≤ (compute_position ((100 : Int), 80) (30, 20) "top-right" 5).1 := by
  have h := compute_position_corners 100 80 30 20 5
    (by decide) (by decide) (by decide) (by decide) (by decide)
  refine ⟨h.1.2.2.2, ?_⟩
  exact (h.2 (by decide) (by decide) "top-right" (by decide)).1

/-- **C2.** For positive image and text dimensions, the `"center"` anchor
returns exactly `((img_w - text_w) // 2, (img_h - text_h) // 2)` with floor
division, for every margin value (the margin is ignored). -/
theorem compute_position_center (img_w img_h text_w text_h : Int)
    (hw : 0 < img_w) (hh : 0 < img_h) (htw : 0 < text_w) (hth : 0 < text_h) :
    ∀ margin : Int,
      compute_position (img_w, img_h) (text_w, text_h) "center" margin
        = ((img_w - text_w).fdiv 2, (img_h - text_h).fdiv 2) := by
  intro margin
  rfl

/-- Witness for C2 at image 101×80, text 30×21, margin 999:
`(101-30)//2 = 35` and `(80-21)//2 = 29` (floor division). -/
theorem compute_position_center_witness :
    compute_position ((101 : Int), 80) (30, 21) "center" 999 = (35, 29) :=
  (compute_position_center 101 80 30 21
    (by decide) (by decide) (by decide) (by decide) 999).trans (by decide)

/-- **C3, counterexample.** The anchor name `"diagonal"` is not one of the five
documented anchors, yet `compute_position` neither rejects it nor leaves it
undefined: it silently returns the same coordinates as the `"center"` anchor.
This refutes the claim that unrecognized anchor names are
"rejected or left undefined, and not silently defaulted". -/
theorem compute_position_unknown_anchor_defaults :
    compute_position ((100 : Int), 100) (20, 10) "diagonal" 5
        = compute_position ((100 : Int), 100) (20, 10) "center" 5
    ∧ compute_position ((100 : Int), 100) (20, 10) "diagonal" 5 = (40, 45)
    ∧ "diagonal" ∉ anchorNames := by
  refine ⟨rfl, by decide, by decide⟩

/-- **C3, amended.** `compute_position` is total over all anchor strings: the
four corner names get their documented corner placements, and every other
anchor name — including `"center"` and unrecognized names — is silently given
the center placement rather than being rejected. -/
theorem compute_position_total_with_center_default
    (img_w img_h text_w text_h margin : Int) :
    (compute_position (img_w, img_h) (text_w, text_h) "top-left" margin
        = (margin, margin)
      ∧ compute_position (img_w, img_h) (text_w, text_h) "top-right" margin
        = (img_w - text_w - margin, margin)
      ∧ compute_position (img_w, img_h) (text_w, text_h) "bottom-left" margin
        = (margin, img_h - text_h - margin)
      ∧ compute_position (img_w, img_h) (text_w, text_h) "bottom-right" margin
        = (img_w - text_w - margin, img_h - text_h - margin))
    ∧ ∀ pos : String, pos ∉ cornerNames →
        compute_position (img_w, img_h) (text_w, text_h) pos margin
          = ((img_w - text_w).fdiv 2, (img_h - text_h).fdiv 2) := by
  exact ⟨⟨rfl, rfl, rfl, rfl⟩,
    fun pos h => compute_position_of_not_corner img_w img_h text_w text_h margin pos h⟩

/-- Witness for the amended C3 at a concrete non-corner anchor. -/
theorem compute_position_total_with_center_default_witness :
    compute_position ((60 : Int), 40) (10, 8) "outside" 3 = (25, 16) :=
  ((compute_position_total_with_center_default 60 40 10 8 3).2
    "outside" (by decide)).trans (by decide)

/-- **C10.** Every anchor string that is not one of the four corner names —
`"center"` included — makes `compute_position` return the center coordinates
`((img_w - text_w) // 2, (img_h - text_h) // 2)`: unrecognized anchors default
to center placement. -/
theorem compute_position_noncorner_is_center
    (img_w img_h text_w text_h margin : Int) (pos : String)
    (h : pos ∉ cornerNames) :
    compute_position (img_w, img_h) (text_w, text_h) pos margin
      = ((img_w - text_w).fdiv 2, (img_h - text_h).fdiv 2) :=
  compute_position_of_not_corner img_w img_h text_w text_h margin pos h

/-- Witness for C10 at anchor `"middle"`, image 9×9, text 4×4:
`(9-4)//2 = 2`. -/
theorem compute_position_noncorner_is_center_witness :
    compute_position ((9 : Int), 9) (4, 4) "middle" 100 = (2, 2) :=
  (compute_position_noncorner_is_center 9 9 4 4 100 "middle" (by decide)).trans
    (by decide)

/-! ## Date resolver

`extract_shoot_date(image, fallback_path)` from `main.py` lines 110-146.
The EXIF block is modelled as an association list from tag names (after the
`ExifTags.TAGS` renaming) to values; a value is either a string or some
non-string object.  `datetime.strptime` is modelled for the six format
strings the program uses: a directive matches digits exactly as CPython's
`_strptime` regular expressions do on these formats (`%Y` exactly four
digits; `%m`, `%d`, `%H`, `%M`, `%S` two digits when the two-digit value is
in range, else one digit in range), the whole string must be consumed, and
the resulting calendar date must be valid (`datetime` constructor check).
The file modification time (`fallback_path.stat().st_mtime`) is modelled as
an optional date-time value: `none` when `stat` raises. -/

/-- Value of one digit character. -/
def digitVal (c : Char) : Nat := c.toNat - 48

/-- `%Y`: exactly four digits (CPython `_strptime` uses the pattern
`\d\d\d\d` for `%Y`). -/
def parseYear4 (cs : List Char) : Option (Nat × List Char) :=
  match cs with
  | a :: b :: c :: d :: rest =>
    if a.isDigit && b.isDigit && c.isDigit && d.isDigit then
      some (digitVal a * 1000 + digitVal b * 100 + digitVal c * 10 + digitVal d, rest)
    else none
  | _ => none

/-- A one-or-two digit numeric directive with value range `[lo, hi]`:
two digits when the two-digit value is in range, otherwise one digit in
range.  On the six formats used here this consumes exactly what CPython's
alternation patterns (e.g. `1[0-2]|0[1-9]|[1-9]` for `%m`) consume. -/
def parseNum2 (lo hi : Nat) (cs : List Char) : Option (Nat × List Char) :=
  match cs with
  | a :: b :: rest =>
    if a.isDigit then
      if b.isDigit then
        if lo ≤ digitVal a * 10 + digitVal b ∧ digitVal a * 10 + digitVal b ≤ hi then
          some (digitVal a * 10 + digitVal b, rest)
        else if lo ≤ digitVal a ∧ digitVal a ≤ hi then
          some (digitVal a, b :: rest)
        else none
      else if lo ≤ digitVal a ∧ digitVal a ≤ hi then
        some (digitVal a, b :: rest)
      else none
    else none
  | [a] =>
    if a.isDigit ∧ lo ≤ digitVal a ∧ digitVal a ≤ hi then some (digitVal a, [])
    else none
  | [] => none

/-- A parsed date-time (`datetime` fields the program ever looks at). -/
structure ParsedDT where
  year : Nat
  month : Nat
  day : Nat
  hour : Nat
  minute : Nat
  second : Nat
deriving DecidableEq

/-- `strptime` defaults: 1900-01-01 00:00:00. -/
def initDT : ParsedDT := ⟨1900, 1, 1, 0, 0, 0⟩

/-- One `strptime` format directive. -/
inductive Dir where
  | year
  | month
  | day
  | hour
  | minute
  | second
  | lit (c : Char)

/-- Run a format (list of directives) over the input characters, requiring
the whole input to be consumed (`strptime` rejects unconverted data). -/
def runDirs : List Dir → List Char → ParsedDT → Option ParsedDT
  | [], [], acc => some acc
  | [], _ :: _, _ => none
  | .year :: ds, cs, acc =>
    match parseYear4 cs with
    | some (v, rest) => runDirs ds rest { acc with year := v }
    | none => none
  | .month :: ds, cs, acc =>
    match parseNum2 1 12 cs with
    | some (v, rest) => runDirs ds rest { acc with month := v }
    | none => none
  | .day :: ds, cs, acc =>
    match parseNum2 1 31 cs with
    | some (v, rest) => runDirs ds rest { acc with day := v }
    | none => none
  | .hour :: ds, cs, acc =>
    match parseNum2 0 23 cs with
    | some (v, rest) => runDirs ds rest { acc with hour := v }
    | none => none
  | .minute :: ds, cs, acc =>
    match parseNum2 0 59 cs with
    | some (v, rest) => runDirs ds rest { acc with minute := v }
    | none => none
  | .second :: ds, cs, acc =>
    match parseNum2 0 59 cs with
    | some (v, rest) => runDirs ds rest { acc with second := v }
    | none => none
  | .lit c :: ds, cs, acc =>
    match cs with
    | c' :: rest => if c' = c then runDirs ds rest acc else none
    | [] => none

def isLeap (y : Nat) : Bool :=
  (y % 4 == 0 && y % 100 != 0) || y % 400 == 0

def daysInMonth (y m : Nat) : Nat :=
  if m = 2 then (if isLeap y then 29 else 28)
  else if m = 4 ∨ m = 6 ∨ m = 9 ∨ m = 11 then 30
  else 31

/-- `datetime.strptime(s, fmt)` followed by the `datetime` constructor's
calendar check, as `Option` instead of `ValueError`. -/
def strptime (fmt : List Dir) (s : String) : Option ParsedDT :=
  match runDirs fmt s.data initDT with
  | some p => if 1 ≤ p.year ∧ p.day ≤ daysInMonth p.year p.month then some p else none
  | none => none

/-- `"%Y:%m:%d %H:%M:%S"` — the typical EXIF format tried first. -/
def fmtColonFull : List Dir :=
  [.year, .lit ':', .month, .lit ':', .day, .lit ' ',
   .hour, .lit ':', .minute, .lit ':', .second]

/-- `"%Y-%m-%d %H:%M:%S"` -/
def fmtDashFull : List Dir :=
  [.year, .lit '-', .month, .lit '-', .day, .lit ' ',
   .hour, .lit ':', .minute, .lit ':', .second]

/-- `"%Y/%m/%d %H:%M:%S"` -/
def fmtSlashFull : List Dir :=
  [.year, .lit '/', .month, .lit '/', .day, .lit ' ',
   .hour, .lit ':', .minute, .lit ':', .second]

/-- `"%Y:%m:%d"` -/
def fmtColonDate : List Dir := [.year, .lit ':', .month, .lit ':', .day]

/-- `"%Y-%m-%d"` -/
def fmtDashDate : List Dir := [.year, .lit '-', .month, .lit '-', .day]

/-- `"%Y/%m/%d"` -/
def fmtSlashDate : List Dir := [.year, .lit '/', .month, .lit '/', .day]

/-- The "other common formats" list tried after the primary format fails
(`main.py` lines 128-134, in source order). -/
def fallbackFormats : List (List Dir) :=
  [fmtDashFull, fmtSlashFull, fmtColonDate, fmtDashDate, fmtSlashDate]

/-- First successful parse among a list of formats. -/
def firstParse : List (List Dir) → String → Option ParsedDT
  | [], _ => none
  | f :: fs, s =>
    match strptime f s with
    | some p => some p
    | none => firstParse fs s

/-- Parsing of one tag string: primary format, then the fallback list
(`main.py` lines 122-139). -/
def tryParseTag (s : String) : Option ParsedDT :=
  match strptime fmtColonFull s with
  | some p => some p
  | none => firstParse fallbackFormats s

def pad2 (n : Nat) : String := if n < 10 then "0" ++ toString n else toString n

def pad4 (n : Nat) : String :=
  if n < 10 then "000" ++ toString n
  else if n < 100 then "00" ++ toString n
  else if n < 1000 then "0" ++ toString n
  else toString n

/-- `dt.strftime("%Y-%m-%d")`. -/
def formatDate (p : ParsedDT) : String :=
  pad4 p.year ++ "-" ++ pad2 p.month ++ "-" ++ pad2 p.day

/-- An EXIF tag value: a string, or an object of any other type. -/
inductive ExifVal where
  | str (s : String)
  | nonstr
deriving DecidableEq

/-- The `exif_dict` built on `main.py` lines 112-116: tag name → value. -/
abbrev ExifDict := List (String × ExifVal)

def lookupVal : ExifDict → String → Option ExifVal
  | [], _ => none
  | (k', v) :: rest, k => if k' = k then some v else lookupVal rest k

/-- `key in exif_dict and isinstance(exif_dict[key], str)` (line 120):
the tag's string value when present as a string, `none` otherwise. -/
def lookupStr (d : ExifDict) (k : String) : Option String :=
  match lookupVal d k with
  | some (.str s) => some s
  | _ => none

/-- The dictionary with every binding of key `k` removed. -/
def eraseKey : ExifDict → String → ExifDict
  | [], _ => []
  | (k', v) :: rest, k =>
    if k' = k then eraseKey rest k else (k', v) :: eraseKey rest k

/-- Tag preference order (`main.py` line 119). -/
def dateKeys : List String := ["DateTimeOriginal", "DateTime"]

/-- The tag-scanning loop of lines 119-139: for each key in order, if the
tag is present as a string and some format parses it, return that parse;
otherwise move to the next key. -/
def tagDate : List String → ExifDict → Option ParsedDT
  | [], _ => none
  | k :: ks, d =>
    match lookupStr d k with
    | some s =>
      match tryParseTag s with
      | some p => some p
      | none => tagDate ks d
    | none => tagDate ks d

/-- `extract_shoot_date` (lines 110-146): tag chain, then the file's
modification time, then `None`. -/
def extract_shoot_date (d : ExifDict) (mtime : Option ParsedDT) : Option String :=
  match tagDate dateKeys d with
  | some p => some (formatDate p)
  | none =>
    match mtime with
    | some t => some (formatDate t)
    | none => none

theorem lookupVal_eraseKey_self (d : ExifDict) (k : String) :
    lookupVal (eraseKey d k) k = none := by
  induction d with
  | nil => rfl
  | cons hd tl ih =>
    obtain ⟨a, v⟩ := hd
    by_cases h : a = k <;> simp [eraseKey, lookupVal, h, ih]

theorem lookupVal_eraseKey_ne (d : ExifDict) (k k' : String) (h : k' ≠ k) :
    lookupVal (eraseKey d k) k' = lookupVal d k' := by
  induction d with
  | nil => rfl
  | cons hd tl ih =>
    obtain ⟨a, v⟩ := hd
    by_cases hk : a = k
    · have hne : ¬a = k' := fun hc => h (hc.symm.trans hk)
      simp [eraseKey, lookupVal, hk, hne, Ne.symm h, ih]
    · by_cases hk' : a = k' <;> simp [eraseKey, lookupVal, hk, hk', h, Ne.symm h, ih]

/-- When the tag at `k` is not a string, erasing `k` changes no
string-lookup at all. -/
theorem lookupStr_eraseKey (d : ExifDict) (k k' : String)
    (hnone : lookupStr d k = none) :
    lookupStr (eraseKey d k) k' = lookupStr d k' := by
  by_cases h : k' = k
  · subst h
    rw [hnone]
    simp [lookupStr, lookupVal_eraseKey_self]
  · simp [lookupStr, lookupVal_eraseKey_ne d k k' h]

theorem tagDate_congr (ks : List String) (d d' : ExifDict)
    (h : ∀ k, lookupStr d' k = lookupStr d k) :
    tagDate ks d' = tagDate ks d := by
  induction ks with
  | nil => rfl
  | cons k ks ih => simp [tagDate, h k, ih]

/-- **C4.** A metadata block whose `DateTimeOriginal` tag is the string
`"2023:07:15 10:30:00"` resolves to `"2023-07-15"`, whatever the other tags
and the file's modification time are; and in general, whenever the
`DateTimeOriginal` tag is present as a parseable string, the resolver
returns its date — the generic `DateTime` tag is never consulted in that
case. -/
theorem extract_shoot_date_original_first (d : ExifDict) (mt : Option ParsedDT) :
    (lookupStr d "DateTimeOriginal" = some "2023:07:15 10:30:00" →
      extract_shoot_date d mt = some "2023-07-15")
    ∧ (∀ s p, lookupStr d "DateTimeOriginal" = some s → tryParseTag s = some p →
        extract_shoot_date d mt = some (formatDate p)) := by
  constructor
  · intro h
    have hp : tryParseTag "2023:07:15 10:30:00" = some ⟨2023, 7, 15, 10, 30, 0⟩ := by
      decide
    simp [extract_shoot_date, tagDate, dateKeys, h, hp]
    decide
  · intro s p hs hp
    simp [extract_shoot_date, tagDate, dateKeys, hs, hp]

/-- Witness for C4: a concrete block carrying both tags resolves from
`DateTimeOriginal`, ignoring the `DateTime` value. -/
theorem extract_shoot_date_original_first_witness :
    extract_shoot_date
      [("DateTimeOriginal", ExifVal.str "2023:07:15 10:30:00"),
       ("DateTime", ExifVal.str "1999:01:01 00:00:00")] none
      = some "2023-07-15" :=
  (extract_shoot_date_original_first
    [("DateTimeOriginal", ExifVal.str "2023:07:15 10:30:00"),
     ("DateTime", ExifVal.str "1999:01:01 00:00:00")] none).1 (by decide)

/-- **C5.** A date tag whose value is not a string is treated exactly as if
the tag were absent: the resolver (a total, log-free function in this model)
produces the same result as on the dictionary with that tag removed, so the
next source in the fallback chain is the one that decides. -/
theorem extract_shoot_date_nonstring_tag (d : ExifDict) (mt : Option ParsedDT)
    (k : String) (hk : k ∈ dateKeys) (h : lookupVal d k = some ExifVal.nonstr) :
    extract_shoot_date d mt = extract_shoot_date (eraseKey d k) mt := by
  have hnone : lookupStr d k = none := by
    simp [lookupStr, h]
  have hcong : tagDate dateKeys (eraseKey d k) = tagDate dateKeys d :=
    tagDate_congr dateKeys d (eraseKey d k) (fun k' => lookupStr_eraseKey d k k' hnone)
  simp [extract_shoot_date, hcong]

/-- Witness for C5: a non-string `DateTime` tag leaves the resolver falling
back to the modification time, same as with no tags at all. -/
theorem extract_shoot_date_nonstring_tag_witness :
    extract_shoot_date [("DateTime", ExifVal.nonstr)] (some ⟨2024, 1, 2, 3, 4, 5⟩)
      = extract_shoot_date (eraseKey [("DateTime", ExifVal.nonstr)] "DateTime")
          (some ⟨2024, 1, 2, 3, 4, 5⟩) :=
  extract_shoot_date_nonstring_tag [("DateTime", ExifVal.nonstr)]
    (some ⟨2024, 1, 2, 3, 4, 5⟩) "DateTime" (by decide) (by decide)

/-- **C6.** The resolver returns `none` ("no date available") exactly when
no tag yields a parseable date and the modification time is unreadable; and
whenever no tag yields a date but the modification time is readable, the
result is that timestamp's date in the same canonical `YYYY-MM-DD` form. -/
theorem extract_shoot_date_none_iff (d : ExifDict) (mt : Option ParsedDT) :
    (extract_shoot_date d mt = none ↔ tagDate dateKeys d = none ∧ mt = none)
    ∧ (tagDate dateKeys d = none →
        ∀ t, extract_shoot_date d (some t) = some (formatDate t)) := by
  constructor
  · cases htag : tagDate dateKeys d <;> cases mt <;> simp [extract_shoot_date, htag]
  · intro htag t
    simp [extract_shoot_date, htag]

/-- Witness for C6: an unparseable tag plus unreadable mtime gives `none`;
the same tags with a readable mtime give that date. -/
theorem extract_shoot_date_none_iff_witness :
    extract_shoot_date [("DateTimeOriginal", ExifVal.str "garbage")] none = none
    ∧ extract_shoot_date [("DateTimeOriginal", ExifVal.str "garbage")]
        (some ⟨2031, 12, 5, 1, 2, 3⟩) = some "2031-12-05" :=
  ⟨(extract_shoot_date_none_iff [("DateTimeOriginal", ExifVal.str "garbage")]
      none).1.mpr ⟨by decide, rfl⟩,
   ((extract_shoot_date_none_iff [("DateTimeOriginal", ExifVal.str "garbage")]
      none).2 (by decide) ⟨2031, 12, 5, 1, 2, 3⟩).trans (by decide)⟩

/-! ## File enumerator

`iter_images(root, recursive)` from `main.py` lines 77-86.  The filesystem
is modelled as the root directory's path components (`rootParts`) plus a
listing of entries below the root, each an `FSEntry` carrying its path
components relative to the root (ordered, the last one being the entry's
name) and whether it is a regular file.  In recursive mode the source
iterates `root.rglob("*")` (every descendant) and keeps files whose
lower-cased `suffix` is in the extension set and whose `parts` — the full
path, root components included — contain no `"_watermark"` component; in
non-recursive mode it iterates `root.iterdir()` (entries whose relative
path has exactly one component) and additionally requires
`p.parent.name != "_watermark"`, where the parent of a direct child is the
root itself. -/

structure FSEntry where
  relParts : List String
  isFile : Bool
deriving DecidableEq

def imageExts : List String :=
  [".jpg", ".jpeg", ".png", ".bmp", ".tiff", ".gif", ".webp"]

/-- `str.lower()` restricted to ASCII letters — the only case mapping that
can make a suffix match the all-ASCII extension allow-list. -/
def charLower (c : Char) : Char :=
  if 'A' ≤ c ∧ c ≤ 'Z' then Char.ofNat (c.toNat + 32) else c

def strLower (s : String) : String := String.mk (s.data.map charLower)

/-- `pathlib.PurePath.suffix`: the last dot-suffix of the name, empty when
the name has no dot, starts with its only dot, or ends with a dot. -/
def pathSuffix (name : String) : String :=
  let rev := name.data.reverse
  let ext := rev.takeWhile (fun c => c ≠ '.')
  match rev.dropWhile (fun c => c ≠ '.') with
  | _ :: _ :: _ => if ext = [] then "" else String.mk ('.' :: ext.reverse)
  | _ => ""

/-- The entry's own name (last relative component). -/
def fileName (e : FSEntry) : String := e.relParts.getLastD ""

def iter_images (rootParts : List String) (entries : List FSEntry)
    (recursive : Bool) : List FSEntry :=
  if recursive then
    entries.filter (fun e =>
      decide (e.isFile = true
        ∧ strLower (pathSuffix (fileName e)) ∈ imageExts
        ∧ "_watermark" ∉ rootParts ++ e.relParts))
  else
    entries.filter (fun e =>
      decide (e.relParts.length = 1 ∧ e.isFile = true
        ∧ strLower (pathSuffix (fileName e)) ∈ imageExts
        ∧ rootParts.getLastD "" ≠ "_watermark"))

/-- The exemplar directory of the spec, with a nested `_watermark` folder
left over from an earlier recursive run on `sub`. -/
def entries7 : List FSEntry :=
  [⟨["a.jpg"], true⟩, ⟨["b.txt"], true⟩,
   ⟨["_watermark"], false⟩, ⟨["_watermark", "c.jpg"], true⟩,
   ⟨["sub"], false⟩, ⟨["sub", "_watermark"], false⟩,
   ⟨["sub", "_watermark", "d.jpg"], true⟩]

/-- **C7, counterexample.** In the directory `entries7` (root `photos`,
no `_watermark` component in the root's own path), the file
`sub/_watermark/d.jpg` has an allow-listed extension and does **not** lie
inside the run's output subfolder `_watermark` (its relative path does not
start with that component), yet recursive enumeration does not yield it:
the code drops every path containing a `_watermark` component anywhere,
not only the output subfolder.  So the enumerator does not yield exactly
the allow-listed files outside the output subfolder. -/
theorem iter_images_excludes_nested_watermark :
    (⟨["sub", "_watermark", "d.jpg"], true⟩ : FSEntry) ∈ entries7
    ∧ (⟨["sub", "_watermark", "d.jpg"], true⟩ : FSEntry).isFile = true
    ∧ strLower (pathSuffix (fileName ⟨["sub", "_watermark", "d.jpg"], true⟩)) ∈ imageExts
    ∧ List.take 1 ["sub", "_watermark", "d.jpg"] ≠ ["_watermark"]
    ∧ (⟨["sub", "_watermark", "d.jpg"], true⟩ : FSEntry)
        ∉ iter_images ["photos"] entries7 true := by
  decide

/-- **C7, amended.** For every root directory, the enumerator yields exactly
the files with an allow-listed extension (case-insensitively), except that
recursive enumeration skips every file whose full path — root components
included — passes through a component named `_watermark` (this covers the
run's output subfolder and any nested output folder of a previous run), and
non-recursive enumeration yields the direct children unless the root
directory is itself named `_watermark`, in which case it yields nothing. -/
theorem iter_images_spec (rootParts : List String) (entries : List FSEntry)
    (e : FSEntry) :
    (e ∈ iter_images rootParts entries true ↔
      e ∈ entries ∧ e.isFile = true
        ∧ strLower (pathSuffix (fileName e)) ∈ imageExts
        ∧ "_watermark" ∉ rootParts ∧ "_watermark" ∉ e.relParts)
    ∧ (e ∈ iter_images rootParts entries false ↔
      e ∈ entries ∧ e.relParts.length = 1 ∧ e.isFile = true
        ∧ strLower (pathSuffix (fileName e)) ∈ imageExts
        ∧ rootParts.getLastD "" ≠ "_watermark") := by
  constructor
  · simp [iter_images, List.mem_filter, decide_eq_true_iff, List.mem_append, not_or,
      and_assoc]
  · simp [iter_images, List.mem_filter, decide_eq_true_iff, and_assoc]

/-- Witness for the amended C7 on the exemplar directory: non-recursive
enumeration yields only `a.jpg`, and recursive enumeration also yields only
`a.jpg` (everything under a `_watermark` folder is excluded). -/
theorem iter_images_spec_witness :
    (⟨["a.jpg"], true⟩ : FSEntry) ∈ iter_images ["photos"] entries7 true
    ∧ iter_images ["photos"] entries7 false = [⟨["a.jpg"], true⟩]
    ∧ iter_images ["photos"] entries7 true = [⟨["a.jpg"], true⟩] :=
  ⟨(iter_images_spec ["photos"] entries7 ⟨["a.jpg"], true⟩).1.mpr (by decide),
   by decide, by decide⟩

/-! ## Compositor and driver

`draw_watermark` (lines 167-210) and `main` (lines 213-241).  The
side-effecting steps of one file's processing — `Image.open(...).convert`,
text measuring, drawing, `save` — are modelled by an environment `FileEnv`
recording, for each step, whether the underlying library raised (`some
message`) or succeeded (`none`), together with the inputs of the date
resolver.  The body of `draw_watermark` is the sequential composition of
those steps in the `Except` monad (first raise wins); the `try/except`
boundary of lines 175-210 converts any error into a `none` result plus one
log line carrying the offending path.  Printed output is modelled as a
list of log lines. -/

structure FileEnv where
  name : String
  openErr : Option String
  exif : ExifDict
  mtime : Option ParsedDT
  measureErr : Option String
  drawErr : Option String
  saveErr : Option String
deriving DecidableEq

/-- The `try` body of `draw_watermark`: open, resolve date (a `None` date
is a skip, not an exception), measure, draw, save.  The first raising step
short-circuits with its exception. -/
def draw_watermark_body (env : FileEnv) : Except String (Option String) :=
  match env.openErr with
  | some msg => .error msg
  | none =>
    match extract_shoot_date env.exif env.mtime with
    | none => .ok none
    | some _ =>
      match env.measureErr with
      | some msg => .error msg
      | none =>
        match env.drawErr with
        | some msg => .error msg
        | none =>
          match env.saveErr with
          | some msg => .error msg
          | none => .ok (some env.name)

/-- `draw_watermark` with its catch-all `except` clause: a skip logs
`"Skip (no date): <path>"` and returns `None`; an exception is caught,
logged as `"Error processing <path>: <exc>"`, and turned into `None`;
success returns the output path (same file name) and logs nothing. -/
def draw_watermark (env : FileEnv) : Option String × List String :=
  match draw_watermark_body env with
  | .ok none => (none, ["Skip (no date): " ++ env.name])
  | .ok (some p) => (some p, [])
  | .error msg => (none, ["Error processing " ++ env.name ++ ": " ++ msg])

/-- The per-file loop of `main` (lines 228-239): process every file in
order, counting successes and accumulating the printed lines. -/
def processAll : List FileEnv → Nat × List String
  | [] => (0, [])
  | env :: rest =>
    ((if (draw_watermark env).1.isSome then 1 else 0) + (processAll rest).1,
     (draw_watermark env).2 ++ (processAll rest).2)

/-- Some step of this file's processing fails: the open raises, the date is
unresolvable, or measuring, drawing or saving raises. -/
def failsEnv (env : FileEnv) : Prop :=
  env.openErr ≠ none ∨ extract_shoot_date env.exif env.mtime = none
    ∨ env.measureErr ≠ none ∨ env.drawErr ≠ none ∨ env.saveErr ≠ none

theorem processAll_count (envs : List FileEnv) :
    (processAll envs).1 = envs.countP (fun e => (draw_watermark e).1.isSome) := by
  induction envs with
  | nil => rfl
  | cons env rest ih =>
    simp only [processAll, List.countP_cons, ih]
    by_cases h : (draw_watermark env).1.isSome = true <;> simp [h] <;> omega

/-- **C8.** Every failure during one file's processing — open, an
unresolvable date, measure, draw, or save — is contained at the per-file
boundary: the routine returns `none` ("not processed") and emits exactly
one log line naming the offending path; absent any failure it returns the
output path.  No error escapes a file: the driver's count is a total
function of the whole list (every enumerated file is visited), and
processing a list headed by any file — failing or not — continues with the
remaining files' results intact. -/
theorem draw_watermark_failure_boundary :
    (∀ env : FileEnv, failsEnv env →
      (draw_watermark env).1 = none
        ∧ ∃ pre post, (draw_watermark env).2 = [pre ++ env.name ++ post])
    ∧ (∀ env : FileEnv, ¬failsEnv env →
        (draw_watermark env).1 = some env.name ∧ (draw_watermark env).2 = [])
    ∧ (∀ envs : List FileEnv,
        (processAll envs).1 = envs.countP (fun e => (draw_watermark e).1.isSome))
    ∧ (∀ env : FileEnv, ∀ rest : List FileEnv,
        (processAll (env :: rest)).1
          = (if (draw_watermark env).1.isSome then 1 else 0) + (processAll rest).1
        ∧ (processAll (env :: rest)).2
          = (draw_watermark env).2 ++ (processAll rest).2) := by
  refine ⟨?_, ?_, processAll_count, fun env rest => ⟨rfl, rfl⟩⟩
  · rintro ⟨name, openErr, exif, mtime, measureErr, drawErr, saveErr⟩ hfail
    cases openErr with
    | some m =>
      exact ⟨rfl, "Error processing ", ": " ++ m, by
        simp [draw_watermark, draw_watermark_body, String.append_assoc]⟩
    | none =>
      cases hdate : extract_shoot_date exif mtime with
      | none =>
        refine ⟨?_, "Skip (no date): ", "", ?_⟩ <;>
          simp [draw_watermark, draw_watermark_body, hdate]
      | some p =>
        cases measureErr with
        | some m =>
          refine ⟨?_, "Error processing ", ": " ++ m, ?_⟩ <;>
            simp [draw_watermark, draw_watermark_body, hdate, String.append_assoc]
        | none =>
          cases drawErr with
          | some m =>
            refine ⟨?_, "Error processing ", ": " ++ m, ?_⟩ <;>
              simp [draw_watermark, draw_watermark_body, hdate, String.append_assoc]
          | none =>
            cases saveErr with
            | some m =>
              refine ⟨?_, "Error processing ", ": " ++ m, ?_⟩ <;>
                simp [draw_watermark, draw_watermark_body, hdate, String.append_assoc]
            | none =>
              exfalso
              simp [failsEnv, hdate] at hfail
  · rintro ⟨name, openErr, exif, mtime, measureErr, drawErr, saveErr⟩ hok
    simp only [failsEnv, not_or] at hok
    obtain ⟨h1, h2, h3, h4, h5⟩ := hok
    cases openErr with
    | some m => exact absurd (Option.some_ne_none m) h1
    | none =>
      cases hdate : extract_shoot_date exif mtime with
      | none => exact absurd hdate (by exact h2)
      | some p =>
        cases measureErr with
        | some m => exact absurd (Option.some_ne_none m) h3
        | none =>
          cases drawErr with
          | some m => exact absurd (Option.some_ne_none m) h4
          | none =>
            cases saveErr with
            | some m => exact absurd (Option.some_ne_none m) h5
            | none =>
              constructor <;> simp [draw_watermark, draw_watermark_body, hdate]

/-- Witness for C8: a file whose open raises is logged and not processed;
a run over it and a healthy file still counts the healthy one. -/
theorem draw_watermark_failure_boundary_witness :
    (draw_watermark ⟨"img1.jpg", some "corrupt file", [], none, none, none, none⟩).1
      = none
    ∧ ∃ pre post,
        (draw_watermark ⟨"img1.jpg", some "corrupt file", [], none, none, none, none⟩).2
          = [pre ++ "img1.jpg" ++ post] :=
  draw_watermark_failure_boundary.1
    ⟨"img1.jpg", some "corrupt file", [], none, none, none, none⟩
    (Or.inl (by decide))

/-- `print(f"Done. Watermarked {processed}/{len(images)} image(s).")` -/
def doneLine (processed total : Nat) : String :=
  "Done. Watermarked " ++ toString processed ++ "/" ++ toString total ++ " image(s)."

/-- The printed output of `main` after enumeration succeeded (lines
219-241): with no images, only `"No images found to process."`; otherwise
the header lines, the per-file lines, and the final summary line. -/
def main_run (sourceName outputName : String) (envs : List FileEnv) : List String :=
  if envs.length = 0 then ["No images found to process."]
  else
    ("Source: " ++ sourceName) :: ("Output: " ++ outputName)
      :: ("Found " ++ toString envs.length ++ " image(s). Processing...")
      :: ((processAll envs).2 ++ [doneLine (processAll envs).1 envs.length])

/-- **C9, counterexample.** With zero files enumerated (a successful
enumeration of an empty directory), `main` prints only
`"No images found to process."` and no `"Watermarked N/M"` summary line at
all — in particular not the `0/0` one — refuting the claim that the final
summary count is always printed when enumeration succeeds. -/
theorem main_run_zero_files_no_summary :
    main_run "photos" "photos/_watermark" [] = ["No images found to process."]
    ∧ doneLine 0 0 ∉ main_run "photos" "photos/_watermark" [] := by
  decide

/-- **C9, amended.** Whenever enumeration succeeds and finds at least one
file, the run ends by printing the summary line `"Done. Watermarked N/M
image(s)."` with `N` the number of successfully processed files and `M` the
number of enumerated files; when zero files are found it prints
`"No images found to process."` instead, with no summary line. -/
theorem main_run_summary (s o : String) (envs : List FileEnv) :
    (envs ≠ [] →
      ∃ lines, main_run s o envs
        = lines ++ [doneLine (envs.countP (fun e => (draw_watermark e).1.isSome))
            envs.length])
    ∧ (envs = [] → main_run s o envs = ["No images found to process."]) := by
  constructor
  · intro hne
    cases envs with
    | nil => exact absurd rfl hne
    | cons env rest =>
      refine ⟨("Source: " ++ s) :: ("Output: " ++ o)
        :: ("Found " ++ toString (env :: rest).length ++ " image(s). Processing...")
        :: (processAll (env :: rest)).2, ?_⟩
      simp [main_run, processAll_count]
  · intro h
    subst h
    rfl

/-- Witness for the amended C9: one healthy file gives a run ending in
`"Done. Watermarked 1/1 image(s)."`; the empty run prints only the
no-images line. -/
theorem main_run_summary_witness :
    (∃ lines, main_run "p" "o"
        [⟨"a.jpg", none, [("DateTimeOriginal", ExifVal.str "2023:07:15 10:30:00")],
          none, none, none, none⟩]
      = lines ++ [doneLine 1 1])
    ∧ main_run "p" "o" [] = ["No images found to process."] := by
  constructor
  · have h := (main_run_summary "p" "o"
      [⟨"a.jpg", none, [("DateTimeOriginal", ExifVal.str "2023:07:15 10:30:00")],
        none, none, none, none⟩]).1 (by simp)
    have hc : List.countP (fun e => (draw_watermark e).1.isSome)
        [⟨"a.jpg", none, [("DateTimeOriginal", ExifVal.str "2023:07:15 10:30:00")],
          none, none, none, none⟩] = 1 := by decide
    rw [hc] at h
    exact h
  · exact (main_run_summary "p" "o" []).2 rfl

end Watermark
